import Mathlib

/-!
# Verification of the ovh-techlabs workshop lifecycle front end

Shallow embedding of the state-management and page logic of the
`ovh-techlabs` platform front end, together with theorems settling the
frozen specification claims.

Embedded source files:
* `platform/frontend/src/state/store.ts` — the zustand application store:
  normalized workshop/attendee records, optimistic-update overlay,
  effective-state selectors and validated state transitions.
* `platform/frontend/src/pages/WorkshopList.tsx` — `getEffectiveStatus`
  over workshop summaries.
* the WorkshopDetail page — `handleAddAttendee`, `handleDeleteWorkshop`.
* the CreateWorkshop page — `validateForm` / `handleSubmit`.

The pure state-machine module (`calculateWorkshopState`,
`validateStateTransition` of `stateMachine.ts`), the task dispatcher and
the username sanitizer are not part of the available sources; they are
modelled from the specification, as marked on each definition.
-/

/-- Workshop/attendee status values.  In the TypeScript sources these are
string-union types (`WorkshopStatus` additionally contains `completed`);
at runtime both are plain strings drawn from the set below, and the store
mixes them freely (e.g. the optimistic-update map), so we embed them as a
single inductive type. -/
inductive Status where
  | planning
  | deploying
  | active
  | completed
  | failed
  | deleting
  | deleted
deriving DecidableEq, Repr

abbrev WorkshopStatus := Status
abbrev AttendeeStatus := Status

/-- Workshop record (the fields the embedded logic reads). -/
structure Workshop where
  id : String
  name : String
  status : WorkshopStatus
deriving DecidableEq, Repr

/-- Attendee record (the fields the embedded logic reads). -/
structure Attendee where
  id : String
  workshop_id : String
  username : String
  email : String
  status : AttendeeStatus
deriving DecidableEq, Repr

/-- Workshop summary as consumed by `WorkshopList.tsx`. -/
structure WorkshopSummary where
  id : String
  name : String
  status : WorkshopStatus
  attendee_count : Nat
  active_attendees : Nat
deriving DecidableEq, Repr

/-- Modelled from the spec: `computeWorkshopState` /
`calculateWorkshopState` of `stateMachine.ts` is not among the available
sources.  The spec defines the pure aggregation as: all attendees active
⇒ active; any failed and none active/deploying ⇒ failed; any active or
deploying (including a mix with failures) ⇒ deploying; all deleted ⇒
deleted.  The empty-list case ("return the stored workshop status
unchanged") is handled by the caller in `store.ts`, which only invokes
the aggregation on a non-empty list; combinations the spec leaves
unspecified (e.g. all planning) fall through to `planning` here. -/
def calculateWorkshopState (attendeeStates : List AttendeeStatus) : WorkshopStatus :=
  if attendeeStates.all (· = .active) then .active
  else if attendeeStates.any (· = .failed)
      ∧ ¬ attendeeStates.any (· = .active)
      ∧ ¬ attendeeStates.any (· = .deploying) then .failed
  else if attendeeStates.any (· = .active) ∨ attendeeStates.any (· = .deploying) then .deploying
  else if attendeeStates.all (· = .deleted) then .deleted
  else .planning

/-- UI overlay of the store: per-entity error strings and optimistic
status predictions (`store.ts`, `UIState`).  The `loading` map is not
read by any embedded operation and is omitted. -/
structure UIState where
  errors : String → Option String
  optimisticUpdates : String → Option Status

/-- The normalized application store (`store.ts`, `NormalizedState` plus
`UIState`).  Record maps `Record<string, T>` become `String → Option T`;
an absent key is `none`. -/
structure AppState where
  workshops : String → Option Workshop
  attendees : String → Option Attendee
  workshopAttendees : String → Option (List String)
  ui : UIState

/-- `store.ts` `getWorkshopAttendees`: look up the id list for the
workshop (missing ⇒ `[]`), map each id through the attendee table and
drop the misses (`.filter(Boolean)`). -/
def getWorkshopAttendees (s : AppState) (workshopId : String) : List Attendee :=
  ((s.workshopAttendees workshopId).getD []).filterMap s.attendees

/-- `store.ts` `getEffectiveAttendeeState`: a pending optimistic update
wins; otherwise the stored status; otherwise `planning`. -/
def getEffectiveAttendeeState (s : AppState) (attendeeId : String) : AttendeeStatus :=
  match s.ui.optimisticUpdates attendeeId with
  | some st => st
  | none =>
    match s.attendees attendeeId with
    | some a => a.status
    | none => .planning

/-- `store.ts` `getEffectiveWorkshopState`: a pending optimistic update
wins; otherwise, with at least one attendee, aggregate the attendees'
effective states; otherwise fall back to the stored status, or
`planning` when the workshop record is absent. -/
def getEffectiveWorkshopState (s : AppState) (workshopId : String) : WorkshopStatus :=
  match s.ui.optimisticUpdates workshopId with
  | some st => st
  | none =>
    let attendees := getWorkshopAttendees s workshopId
    if attendees.length > 0 then
      calculateWorkshopState (attendees.map (fun a => getEffectiveAttendeeState s a.id))
    else
      match s.workshops workshopId with
      | some w => w.status
      | none => .planning

/-- Entity kinds known to the state machine. -/
inductive EntityType where
  | workshop
  | attendee
deriving DecidableEq, Repr

/-- Transition context handed to the validator (`StateContext` in
`store.ts`); the `metadata` and `timestamp` fields are never read by the
validation and are omitted. -/
structure StateContext where
  id : String
  entityType : EntityType
deriving DecidableEq, Repr

/-- Error value attached to a rejected transition. -/
structure StateError where
  message : String
deriving DecidableEq, Repr

/-- Result of validating a transition. -/
structure ValidationResult where
  valid : Bool
  error : Option StateError
deriving DecidableEq, Repr

/-- A transition table: which `(from, to)` status pairs are listed for
each entity kind. -/
def TransitionTable : Type := EntityType → Status → Status → Bool

/-- Modelled from the spec: `validateStateTransition` of
`stateMachine.ts` is not among the available sources.  The spec states
it is "driven by a fixed table per entity kind; unlisted pairs are
invalid. No side effects."; the concrete table is therefore a parameter
and a pair is valid exactly when the table lists it.  The error message
text of the missing source is unknown; a fixed message stands in for it
(no embedded claim depends on its content). -/
def validateStateTransition (table : TransitionTable) (fromState toState : Status)
    (context : StateContext) : ValidationResult :=
  if table context.entityType fromState toState then
    { valid := true, error := none }
  else
    { valid := false, error := some { message := "Invalid state transition" } }

/-- Point update of a string-keyed record map. -/
def mapSet {α : Type} (m : String → Option α) (key : String) (value : α) :
    String → Option α :=
  fun i => if i = key then some value else m i

/-- Point removal from a string-keyed record map (`delete` in the
store's immer recipes). -/
def mapRemove {α : Type} (m : String → Option α) (key : String) :
    String → Option α :=
  fun i => if i = key then none else m i

/-- `store.ts` `transitionWorkshopState`: no-op when the workshop is
absent; on a validation failure only the per-entity error is recorded;
on success the stored status is replaced and any optimistic update and
error for the workshop are cleared. -/
def transitionWorkshopState (table : TransitionTable) (s : AppState)
    (workshopId : String) (newState : WorkshopStatus) : AppState :=
  match s.workshops workshopId with
  | none => s
  | some workshop =>
    let validation := validateStateTransition table workshop.status newState
      { id := workshopId, entityType := .workshop }
    if validation.valid then
      { s with
        workshops := mapSet s.workshops workshopId { workshop with status := newState }
        ui := { errors := mapRemove s.ui.errors workshopId
                optimisticUpdates := mapRemove s.ui.optimisticUpdates workshopId } }
    else
      { s with
        ui := { s.ui with
                errors := mapSet s.ui.errors workshopId
                  ((validation.error.map StateError.message).getD "") } }

/-- `store.ts` `transitionAttendeeState`: no-op when the attendee is
absent; on a validation failure only the per-entity error is recorded;
on success the stored status is replaced, the attendee's optimistic
update and error are cleared, and — when the attendee belongs to a
workshop — the workshop's state is recalculated from the (updated)
stored attendee statuses and pushed through
`transitionWorkshopState`. -/
def transitionAttendeeState (table : TransitionTable) (s : AppState)
    (attendeeId : String) (newState : AttendeeStatus) : AppState :=
  match s.attendees attendeeId with
  | none => s
  | some attendee =>
    let validation := validateStateTransition table attendee.status newState
      { id := attendeeId, entityType := .attendee }
    if validation.valid then
      let s1 : AppState :=
        { s with
          attendees := mapSet s.attendees attendeeId { attendee with status := newState }
          ui := { errors := mapRemove s.ui.errors attendeeId
                  optimisticUpdates := mapRemove s.ui.optimisticUpdates attendeeId } }
      if attendee.workshop_id ≠ "" then
        let workshopAttendees := getWorkshopAttendees s1 attendee.workshop_id
        transitionWorkshopState table s1 attendee.workshop_id
          (calculateWorkshopState (workshopAttendees.map Attendee.status))
      else s1
    else
      { s with
        ui := { s.ui with
                errors := mapSet s.ui.errors attendeeId
                  ((validation.error.map StateError.message).getD "") } }

/-- `WorkshopList.tsx` `getEffectiveStatus`: a summary whose stored
status is not `planning` is shown with the stored status unchanged; a
`planning` summary is shown as `active` when every attendee is active,
`deploying` when some but not all are, and `planning` otherwise. -/
def getEffectiveStatus (workshop : WorkshopSummary) : WorkshopStatus :=
  if workshop.status ≠ .planning then workshop.status
  else if workshop.active_attendees = workshop.attendee_count then .active
  else if 0 < workshop.active_attendees ∧ workshop.active_attendees < workshop.attendee_count then
    .deploying
  else .planning

/-- JavaScript `String.prototype.trim()`: drop the whitespace at both
ends of the string (embedded over the character list so that it reduces
computationally). -/
def jsTrim (s : String) : String :=
  { data := ((s.data.dropWhile Char.isWhitespace).reverse.dropWhile Char.isWhitespace).reverse }

/-- The new-attendee form state of the WorkshopDetail page. -/
structure NewAttendee where
  username : String
  email : String
deriving DecidableEq, Repr

/-- WorkshopDetail `handleAddAttendee`: the submission is aborted (with
an alert) when either trimmed field is empty, and otherwise the
add-attendee mutation is issued.  Returns whether the mutation is
issued. -/
def handleAddAttendee (newAttendee : NewAttendee) : Bool :=
  if jsTrim newAttendee.username = "" ∨ jsTrim newAttendee.email = "" then false
  else true

/-- Whether the WorkshopDetail page issues an add-attendee request for a
workshop in the given status: the Add Attendee button is rendered
unconditionally (not gated on the workshop's status), so the request
depends only on `handleAddAttendee`'s field checks. -/
def addAttendeeRequested (_workshopStatus : WorkshopStatus) (newAttendee : NewAttendee) : Bool :=
  handleAddAttendee newAttendee

/-- WorkshopDetail `handleDeleteWorkshop`: when any attendee's status is
`active` or `deploying` the handler alerts and returns without issuing
the delete mutation; otherwise the mutation is issued iff the user
confirms.  Returns whether the delete mutation is issued. -/
def handleDeleteWorkshop (attendees : List Attendee) (confirmed : Bool) : Bool :=
  let activeAttendees := attendees.filter
    (fun a => a.status = .active ∨ a.status = .deploying)
  if activeAttendees.length > 0 then false
  else confirmed

/-- The CreateWorkshop form state. -/
structure FormData where
  name : String
  description : String
  start_date : String
  end_date : String
deriving DecidableEq, Repr

/-- The CreateWorkshop per-field errors (`FormErrors`); the `general`
field is only written by the mutation error handler, not by
`validateForm`, and is omitted. -/
structure FormErrors where
  name : Option String
  description : Option String
  start_date : Option String
  end_date : Option String
deriving DecidableEq, Repr

/-- CreateWorkshop `validateForm`, over an abstract date parser
`parseDate : String → Int` (milliseconds, standing for
`new Date(str).getTime()`) and the current time `now`
(`new Date().getTime()`).  The floating-point hour comparisons
`duration / 3600000 < 1` and `> 720` of the source are expressed on the
millisecond duration directly (the divisor is positive, so they are
equivalent).  Error assignments overwrite earlier ones for the same
field exactly as the sequential assignments of the source do. -/
def validateForm (parseDate : String → Int) (now : Int) (formData : FormData) : FormErrors :=
  let e0 : FormErrors := { name := none, description := none, start_date := none, end_date := none }
  let e1 :=
    if jsTrim formData.name = "" then { e0 with name := some "Workshop name is required" }
    else if formData.name.length < 3 then
      { e0 with name := some "Workshop name must be at least 3 characters" }
    else if formData.name.length > 100 then
      { e0 with name := some "Workshop name must be less than 100 characters" }
    else e0
  let e2 :=
    if formData.description ≠ "" ∧ formData.description.length > 500 then
      { e1 with description := some "Description must be less than 500 characters" }
    else e1
  let e3 :=
    if formData.start_date = "" then { e2 with start_date := some "Start date is required" }
    else e2
  let e4 :=
    if formData.end_date = "" then { e3 with end_date := some "End date is required" }
    else e3
  if formData.start_date ≠ "" ∧ formData.end_date ≠ "" then
    let startDate := parseDate formData.start_date
    let endDate := parseDate formData.end_date
    let e5 :=
      if startDate < now then
        { e4 with start_date := some "Start date cannot be in the past" }
      else e4
    let e6 :=
      if endDate ≤ startDate then
        { e5 with end_date := some "End date must be after start date" }
      else e5
    let e7 :=
      if endDate - startDate < 3600000 then
        { e6 with end_date := some "Workshop must be at least 1 hour long" }
      else e6
    if endDate - startDate > 720 * 3600000 then
      { e7 with end_date := some "Workshop cannot be longer than 30 days" }
    else e7
  else e4

/-- A form-error record with every field clear (`validateForm` returns
`Object.keys(newErrors).length === 0`). -/
def FormErrors.isEmpty (e : FormErrors) : Bool :=
  e.name = none ∧ e.description = none ∧ e.start_date = none ∧ e.end_date = none

/-- CreateWorkshop `handleSubmit`: the creation request is issued iff
`validateForm` reports no errors.  Returns whether
`createWorkshopMutation.mutate` is called. -/
def handleSubmit (parseDate : String → Int) (now : Int) (formData : FormData) : Bool :=
  FormErrors.isEmpty (validateForm parseDate now formData)

/-- Modelled from the spec: the username sanitizer lives in the
Terraform template (`sanitized_username`, task TERRAFORM-NAMING-FIX-001
of `platform/PROJECT.md`), which is not among the available sources.
Per the spec it is a pure function converting to lowercase and replacing
the disallowed characters — dots, spaces and `@` — with a dash
separator. -/
def sanitizeChar (c : Char) : Char :=
  if c = '.' ∨ c = ' ' ∨ c = '@' then '-' else c.toLower

/-- Modelled from the spec: sanitize a raw username character by
character (see `sanitizeChar`). -/
def sanitizeUsername (username : String) : String :=
  { data := username.data.map sanitizeChar }

/-- Lifecycle states of a `DeploymentTask`; `succeeded` and `failed` are
the terminal ones. -/
inductive TaskState where
  | queued
  | running
  | succeeded
  | failed
deriving DecidableEq, Repr

/-- Kinds of provisioning work. -/
inductive TaskKind where
  | deploy
  | cleanup
  | retry
deriving DecidableEq, Repr

/-- A durable provisioning task (`DeploymentTask` of the data model). -/
structure DeploymentTask where
  id : String
  target_type : EntityType
  target_id : String
  kind : TaskKind
  state : TaskState
deriving DecidableEq, Repr

/-- A task is non-terminal while queued or running. -/
def DeploymentTask.nonTerminal (t : DeploymentTask) : Bool :=
  match t.state with
  | .queued => true
  | .running => true
  | .succeeded => false
  | .failed => false

/-- Dispatcher answer to a submission: admitted and queued, or merged
into the already-in-flight task as a no-op (not an error). -/
inductive SubmitResult where
  | accepted
  | noop
deriving DecidableEq, Repr

/-- Whether some non-terminal task for the given target is present. -/
def hasNonTerminalTask (tasks : List DeploymentTask) (targetType : EntityType)
    (targetId : String) : Bool :=
  tasks.any (fun t => t.target_type == targetType && t.target_id == targetId && t.nonTerminal)

/-- Number of non-terminal tasks for the given target. -/
def nonTerminalCount (tasks : List DeploymentTask) (targetType : EntityType)
    (targetId : String) : Nat :=
  (tasks.filter
    (fun t => t.target_type == targetType && t.target_id == targetId && t.nonTerminal)).length

/-- Modelled from the spec: the Task Dispatcher's admission control is
not among the available sources.  Per the spec, a request for a target
that already has a non-terminal task is rejected as a no-op (idempotent
merge) and nothing is queued; otherwise a durable task record is written
in state `queued` before any work starts. -/
def submitTask (tasks : List DeploymentTask) (targetType : EntityType) (targetId : String)
    (kind : TaskKind) (newId : String) : List DeploymentTask × SubmitResult :=
  if hasNonTerminalTask tasks targetType targetId then
    (tasks, .noop)
  else
    (tasks ++ [{ id := newId, target_type := targetType, target_id := targetId,
                 kind := kind, state := .queued }], .accepted)

/-! ## Concrete sample data used by the witness theorems -/

/-- UI overlay with no errors and no optimistic updates. -/
def emptyUI : UIState :=
  { errors := fun _ => none, optimisticUpdates := fun _ => none }

/-- A deployed (active) attendee of workshop `w1`. -/
def attendeeActive : Attendee :=
  { id := "a1", workshop_id := "w1", username := "alice",
    email := "alice@example.com", status := .active }

/-- Store holding workshop `w1` (stored status `failed`) and its single
active attendee `a1`. -/
def sampleStateActive : AppState :=
  { workshops := fun i => if i = "w1" then some { id := "w1", name := "Demo", status := .failed } else none
    attendees := fun i => if i = "a1" then some attendeeActive else none
    workshopAttendees := fun i => if i = "w1" then some ["a1"] else none
    ui := emptyUI }

/-- Same store as `sampleStateActive` except that the stored workshop
status is `planning`. -/
def sampleStatePlanning : AppState :=
  { sampleStateActive with
    workshops := fun i => if i = "w1" then some { id := "w1", name := "Demo", status := .planning } else none }

/-- Store holding workshop `w1` (stored status `completed`) and no
attendees at all. -/
def sampleStateEmpty : AppState :=
  { workshops := fun i => if i = "w1" then some { id := "w1", name := "Demo", status := .completed } else none
    attendees := fun _ => none
    workshopAttendees := fun _ => none
    ui := emptyUI }

/-- Store with no records and a single pending optimistic update for
`w1`. -/
def sampleStateOptimistic : AppState :=
  { workshops := fun _ => none
    attendees := fun _ => none
    workshopAttendees := fun _ => none
    ui := { errors := fun _ => none
            optimisticUpdates := fun i => if i = "w1" then some .deleting else none } }

/-- A completely empty store. -/
def sampleStateBare : AppState :=
  { workshops := fun _ => none
    attendees := fun _ => none
    workshopAttendees := fun _ => none
    ui := emptyUI }

/-- A transition table listing no pair at all. -/
def denyAllTable : TransitionTable := fun _ _ _ => false

/-- Sample date parser for the CreateWorkshop witnesses: the string
`"end"` parses to one hour past the epoch, everything else to the
epoch. -/
def sampleParseDate : String → Int := fun s => if s = "end" then 3600000 else 0

/-! ## Helper lemmas -/

theorem perm_all_eq {α : Type} {l1 l2 : List α} (h : l1.Perm l2) (p : α → Bool) :
    l1.all p = l2.all p := by
  rw [Bool.eq_iff_iff, List.all_eq_true, List.all_eq_true]
  constructor <;> intro ha x hx
  · exact ha x (h.mem_iff.mpr hx)
  · exact ha x (h.mem_iff.mp hx)

theorem perm_any_eq {α : Type} {l1 l2 : List α} (h : l1.Perm l2) (p : α → Bool) :
    l1.any p = l2.any p := by
  rw [Bool.eq_iff_iff, List.any_eq_true, List.any_eq_true]
  constructor <;> rintro ⟨x, hx, hpx⟩
  · exact ⟨x, h.mem_iff.mp hx, hpx⟩
  · exact ⟨x, h.mem_iff.mpr hx, hpx⟩

/-- The aggregation only looks at which statuses occur (via `all`/`any`),
so it is invariant under permutation of the attendee-status list. -/
theorem calculateWorkshopState_perm {l1 l2 : List AttendeeStatus} (h : l1.Perm l2) :
    calculateWorkshopState l1 = calculateWorkshopState l2 := by
  unfold calculateWorkshopState
  simp only [perm_all_eq h, perm_any_eq h]

/-- Aggregating a list in which every status is `active` yields
`active`. -/
theorem calculateWorkshopState_all_active {l : List AttendeeStatus}
    (h : ∀ st ∈ l, st = Status.active) : calculateWorkshopState l = Status.active := by
  unfold calculateWorkshopState
  rw [if_pos]
  rw [List.all_eq_true]
  intro x hx
  simpa using h x hx

/-! ## Claim theorems -/

/-- C1 (counterexample): `WorkshopList.tsx`'s `getEffectiveStatus` is
influenced by the independently stored status field: two workshop
summaries with the same attendee data (one attendee, one active) get
different effective statuses when their stored statuses differ. -/
theorem effectiveStatus_depends_on_stored_status :
    getEffectiveStatus { id := "w1", name := "Demo", status := Status.failed,
                         attendee_count := 1, active_attendees := 1 } = Status.failed
    ∧ getEffectiveStatus { id := "w2", name := "Demo", status := Status.planning,
                           attendee_count := 1, active_attendees := 1 } = Status.active
    ∧ Status.failed ≠ Status.active := by
  refine ⟨rfl, ?_, by decide⟩
  decide

/-- C3: with no pending optimistic update and an empty attendee list,
`getEffectiveWorkshopState` performs no aggregation and returns the
stored workshop status unchanged. -/
theorem effectiveWorkshopState_empty_returns_stored
    (s : AppState) (workshopId : String) (w : Workshop)
    (hopt : s.ui.optimisticUpdates workshopId = none)
    (hemp : getWorkshopAttendees s workshopId = [])
    (hw : s.workshops workshopId = some w) :
    getEffectiveWorkshopState s workshopId = w.status := by
  unfold getEffectiveWorkshopState
  rw [hopt]
  simp [hemp, hw]

/-- Witness for C3 at a concrete store. -/
theorem effectiveWorkshopState_empty_returns_stored_witness :
    getEffectiveWorkshopState sampleStateEmpty "w1" = Status.completed :=
  effectiveWorkshopState_empty_returns_stored sampleStateEmpty "w1"
    { id := "w1", name := "Demo", status := .completed } rfl rfl rfl

/-- C5: `handleDeleteWorkshop` issues no delete mutation while any
attendee is `deploying` or `active`, independently of the user's
confirmation. -/
theorem deleteWorkshop_blocked_on_active_deployment
    (attendees : List Attendee) (confirmed : Bool) (a : Attendee)
    (ha : a ∈ attendees) (hst : a.status = Status.deploying ∨ a.status = Status.active) :
    handleDeleteWorkshop attendees confirmed = false := by
  have hmem : a ∈ attendees.filter
      (fun x => decide (x.status = Status.active ∨ x.status = Status.deploying)) :=
    List.mem_filter.mpr ⟨ha, by rcases hst with h | h <;> simp [h]⟩
  have hpos : 0 < (attendees.filter
      (fun x => decide (x.status = Status.active ∨ x.status = Status.deploying))).length :=
    List.length_pos.mpr (List.ne_nil_of_mem hmem)
  simp only [handleDeleteWorkshop, gt_iff_lt, if_pos hpos]

/-- Witness for C5: one active attendee, user confirms, yet no delete
is issued. -/
theorem deleteWorkshop_blocked_on_active_deployment_witness :
    (attendeeActive ∈ [attendeeActive]
      ∧ (attendeeActive.status = Status.deploying ∨ attendeeActive.status = Status.active))
    ∧ handleDeleteWorkshop [attendeeActive] true = false :=
  ⟨⟨List.mem_singleton.mpr rfl, Or.inr rfl⟩,
   deleteWorkshop_blocked_on_active_deployment [attendeeActive] true attendeeActive
     (List.mem_singleton.mpr rfl) (Or.inr rfl)⟩

/-- C6 (counterexample): the WorkshopDetail page issues an add-attendee
request for a workshop whose status is `active` (not `planning`) as
soon as both fields are non-empty — the planning-only restriction is
not enforced at the cited code. -/
theorem addAttendee_accepted_while_active :
    addAttendeeRequested Status.active
      { username := "john-doe", email := "john-doe@example.com" } = true := by
  decide

/-- C6 (amended): an add-attendee request is issued exactly when both
trimmed fields are non-empty, for every workshop status alike. -/
theorem addAttendee_depends_only_on_fields (st : WorkshopStatus) (newAttendee : NewAttendee) :
    addAttendeeRequested st newAttendee = true ↔
      jsTrim newAttendee.username ≠ "" ∧ jsTrim newAttendee.email ≠ "" := by
  unfold addAttendeeRequested handleAddAttendee
  split
  · rename_i h
    simp only [Bool.false_eq_true, false_iff]
    tauto
  · rename_i h
    push_neg at h
    simp only [true_iff]
    exact h

/-- C10: the effective-state selectors return a pending optimistic
update with priority over aggregation and the stored status, and
`planning` for an id with no record anywhere in the store. -/
theorem effectiveState_optimistic_precedence (s : AppState) (entityId : String) :
    (∀ st, s.ui.optimisticUpdates entityId = some st →
        getEffectiveWorkshopState s entityId = st ∧ getEffectiveAttendeeState s entityId = st)
    ∧ (s.ui.optimisticUpdates entityId = none → s.workshops entityId = none →
        s.workshopAttendees entityId = none →
        getEffectiveWorkshopState s entityId = Status.planning)
    ∧ (s.ui.optimisticUpdates entityId = none → s.attendees entityId = none →
        getEffectiveAttendeeState s entityId = Status.planning) := by
  refine ⟨?_, ?_, ?_⟩
  · intro st h
    unfold getEffectiveWorkshopState getEffectiveAttendeeState
    rw [h]
    exact ⟨rfl, rfl⟩
  · intro h hw hrel
    unfold getEffectiveWorkshopState
    rw [h]
    simp [getWorkshopAttendees, hrel, hw]
  · intro h ha
    unfold getEffectiveAttendeeState
    rw [h, ha]

/-- Witness for C10: a pending optimistic `deleting` wins in a store
with no records, and an id absent everywhere reads `planning`. -/
theorem effectiveState_optimistic_precedence_witness :
    (getEffectiveWorkshopState sampleStateOptimistic "w1" = Status.deleting
      ∧ getEffectiveAttendeeState sampleStateOptimistic "w1" = Status.deleting)
    ∧ getEffectiveWorkshopState sampleStateBare "x" = Status.planning
    ∧ getEffectiveAttendeeState sampleStateBare "x" = Status.planning :=
  ⟨(effectiveState_optimistic_precedence sampleStateOptimistic "w1").1 .deleting rfl,
   (effectiveState_optimistic_precedence sampleStateBare "x").2.1 rfl rfl rfl,
   (effectiveState_optimistic_precedence sampleStateBare "x").2.2 rfl rfl⟩

/-- C2: with no pending optimistic updates, a workshop with at least
one attendee whose attendees are all stored as `active` has effective
status `active`. -/
theorem effectiveWorkshopState_all_active
    (s : AppState) (workshopId : String)
    (hcoh : ∀ i a, s.attendees i = some a → a.id = i)
    (hopt : s.ui.optimisticUpdates workshopId = none)
    (hne : getWorkshopAttendees s workshopId ≠ [])
    (hall : ∀ a ∈ getWorkshopAttendees s workshopId,
        a.status = Status.active ∧ s.ui.optimisticUpdates a.id = none) :
    getEffectiveWorkshopState s workshopId = Status.active := by
  unfold getEffectiveWorkshopState
  rw [hopt]
  dsimp only
  rw [if_pos (List.length_pos.mpr hne)]
  apply calculateWorkshopState_all_active
  intro st hst
  obtain ⟨a, ha, rfl⟩ := List.mem_map.mp hst
  obtain ⟨hstatus, hoa⟩ := hall a ha
  have hlook : s.attendees a.id = some a := by
    unfold getWorkshopAttendees at ha
    obtain ⟨i, _, hfi⟩ := List.mem_filterMap.mp ha
    rw [hcoh i a hfi]
    exact hfi
  unfold getEffectiveAttendeeState
  rw [hoa, hlook]
  exact hstatus

/-- Witness for C2 at a concrete store with one stored-active
attendee. -/
theorem effectiveWorkshopState_all_active_witness :
    getEffectiveWorkshopState sampleStateActive "w1" = Status.active :=
  effectiveWorkshopState_all_active sampleStateActive "w1"
    (by
      intro i a h
      simp only [sampleStateActive] at h
      by_cases hi : i = "a1"
      · rw [if_pos hi] at h
        injection h with h2
        rw [← h2, hi]
        rfl
      · rw [if_neg hi] at h
        cases h)
    rfl (by decide) (by decide)

/-- C1 (amended): for the store selector, once a workshop has attendees
and no optimistic update is pending for it, the effective status is
determined by the multiset of its attendees' effective statuses alone —
in particular the independently stored workshop status has no
influence. -/
theorem effectiveWorkshopState_multiset_determined
    (s1 s2 : AppState) (workshopId1 workshopId2 : String)
    (h1 : s1.ui.optimisticUpdates workshopId1 = none)
    (h2 : s2.ui.optimisticUpdates workshopId2 = none)
    (hne : getWorkshopAttendees s1 workshopId1 ≠ [])
    (hperm : ((getWorkshopAttendees s1 workshopId1).map
          (fun a => getEffectiveAttendeeState s1 a.id)).Perm
        ((getWorkshopAttendees s2 workshopId2).map
          (fun a => getEffectiveAttendeeState s2 a.id))) :
    getEffectiveWorkshopState s1 workshopId1 = getEffectiveWorkshopState s2 workshopId2 := by
  have hne2 : getWorkshopAttendees s2 workshopId2 ≠ [] := by
    intro h
    apply hne
    rw [h] at hperm
    simp only [List.map_nil] at hperm
    exact List.map_eq_nil_iff.mp (List.perm_nil.mp hperm)
  unfold getEffectiveWorkshopState
  rw [h1, h2]
  dsimp only
  rw [if_pos (List.length_pos.mpr hne), if_pos (List.length_pos.mpr hne2)]
  exact calculateWorkshopState_perm hperm

/-- Witness for C1 (amended): two stores agreeing on the attendee data
(one active attendee) but storing different workshop statuses
(`failed` vs `planning`) produce the same effective status. -/
theorem effectiveWorkshopState_multiset_determined_witness :
    getEffectiveWorkshopState sampleStateActive "w1"
      = getEffectiveWorkshopState sampleStatePlanning "w1" :=
  effectiveWorkshopState_multiset_determined sampleStateActive sampleStatePlanning
    "w1" "w1" rfl rfl (by decide) (by decide)

/-- C4: a transition whose `(from, to)` pair is unlisted in the table
for its entity kind is rejected: for both entity kinds the stored
records, the relationships and the optimistic updates are untouched
(atomicity on validation failure) and only the entity's error entry is
written. -/
theorem transition_rejected_on_unlisted_pair
    (table : TransitionTable) (s : AppState)
    (workshopId attendeeId : String) (w : Workshop) (a : Attendee)
    (toW toA : Status)
    (hw : s.workshops workshopId = some w)
    (hwt : table EntityType.workshop w.status toW = false)
    (ha : s.attendees attendeeId = some a)
    (hat : table EntityType.attendee a.status toA = false) :
    ((transitionWorkshopState table s workshopId toW).workshops = s.workshops
      ∧ (transitionWorkshopState table s workshopId toW).attendees = s.attendees
      ∧ (transitionWorkshopState table s workshopId toW).workshopAttendees
          = s.workshopAttendees
      ∧ (transitionWorkshopState table s workshopId toW).ui.optimisticUpdates
          = s.ui.optimisticUpdates
      ∧ (transitionWorkshopState table s workshopId toW).ui.errors workshopId
          = some "Invalid state transition"
      ∧ ∀ k, k ≠ workshopId →
          (transitionWorkshopState table s workshopId toW).ui.errors k = s.ui.errors k)
    ∧ ((transitionAttendeeState table s attendeeId toA).workshops = s.workshops
      ∧ (transitionAttendeeState table s attendeeId toA).attendees = s.attendees
      ∧ (transitionAttendeeState table s attendeeId toA).workshopAttendees
          = s.workshopAttendees
      ∧ (transitionAttendeeState table s attendeeId toA).ui.optimisticUpdates
          = s.ui.optimisticUpdates
      ∧ (transitionAttendeeState table s attendeeId toA).ui.errors attendeeId
          = some "Invalid state transition"
      ∧ ∀ k, k ≠ attendeeId →
          (transitionAttendeeState table s attendeeId toA).ui.errors k = s.ui.errors k) := by
  have hvW : validateStateTransition table w.status toW
      { id := workshopId, entityType := .workshop }
      = { valid := false, error := some { message := "Invalid state transition" } } := by
    unfold validateStateTransition
    rw [hwt]
    rfl
  have hvA : validateStateTransition table a.status toA
      { id := attendeeId, entityType := .attendee }
      = { valid := false, error := some { message := "Invalid state transition" } } := by
    unfold validateStateTransition
    rw [hat]
    rfl
  have hW : transitionWorkshopState table s workshopId toW
      = { s with ui := { s.ui with
            errors := mapSet s.ui.errors workshopId "Invalid state transition" } } := by
    unfold transitionWorkshopState
    rw [hw]
    dsimp only
    rw [hvW]
    rfl
  have hA : transitionAttendeeState table s attendeeId toA
      = { s with ui := { s.ui with
            errors := mapSet s.ui.errors attendeeId "Invalid state transition" } } := by
    unfold transitionAttendeeState
    rw [ha]
    dsimp only
    rw [hvA]
    rfl
  rw [hW, hA]
  refine ⟨⟨rfl, rfl, rfl, rfl, ?_, ?_⟩, ⟨rfl, rfl, rfl, rfl, ?_, ?_⟩⟩
  · simp [mapSet]
  · intro k hk
    simp [mapSet, hk]
  · simp [mapSet]
  · intro k hk
    simp [mapSet, hk]

/-- Witness for C4: with an empty transition table, both stores stay
unchanged apart from the recorded validation errors. -/
theorem transition_rejected_on_unlisted_pair_witness :
    ((transitionWorkshopState denyAllTable sampleStateActive "w1" Status.active).workshops
        = sampleStateActive.workshops
      ∧ (transitionWorkshopState denyAllTable sampleStateActive "w1" Status.active).attendees
        = sampleStateActive.attendees
      ∧ (transitionWorkshopState denyAllTable sampleStateActive "w1"
          Status.active).workshopAttendees = sampleStateActive.workshopAttendees
      ∧ (transitionWorkshopState denyAllTable sampleStateActive "w1"
          Status.active).ui.optimisticUpdates = sampleStateActive.ui.optimisticUpdates
      ∧ (transitionWorkshopState denyAllTable sampleStateActive "w1" Status.active).ui.errors "w1"
        = some "Invalid state transition"
      ∧ ∀ k, k ≠ "w1" →
          (transitionWorkshopState denyAllTable sampleStateActive "w1" Status.active).ui.errors k
            = sampleStateActive.ui.errors k)
    ∧ ((transitionAttendeeState denyAllTable sampleStateActive "a1" Status.deleting).workshops
        = sampleStateActive.workshops
      ∧ (transitionAttendeeState denyAllTable sampleStateActive "a1" Status.deleting).attendees
        = sampleStateActive.attendees
      ∧ (transitionAttendeeState denyAllTable sampleStateActive "a1"
          Status.deleting).workshopAttendees = sampleStateActive.workshopAttendees
      ∧ (transitionAttendeeState denyAllTable sampleStateActive "a1"
          Status.deleting).ui.optimisticUpdates = sampleStateActive.ui.optimisticUpdates
      ∧ (transitionAttendeeState denyAllTable sampleStateActive "a1"
          Status.deleting).ui.errors "a1" = some "Invalid state transition"
      ∧ ∀ k, k ≠ "a1" →
          (transitionAttendeeState denyAllTable sampleStateActive "a1"
            Status.deleting).ui.errors k = sampleStateActive.ui.errors k) :=
  transition_rejected_on_unlisted_pair denyAllTable sampleStateActive "w1" "a1"
    { id := "w1", name := "Demo", status := .failed } attendeeActive
    Status.active Status.deleting (by decide) rfl (by decide) rfl

/-- `Char.toLower` never returns an uppercase basic-latin letter. -/
theorem toLower_not_upper (c : Char) : (c.toLower).isUpper = false := by
  simp only [Char.toLower]
  split
  · rename_i h
    obtain ⟨h1, h2⟩ := h
    set n := c.toNat with hn
    interval_cases n <;> decide
  · rename_i h
    simp only [Char.isUpper, Char.toNat, Bool.and_eq_false_iff, decide_eq_false_iff_not,
      UInt32.not_le] at *
    rcases Nat.lt_or_ge c.val.toNat 65 with hlt | hge
    · left
      show c.val.toNat < (65 : UInt32).toNat
      have h65 : (65 : UInt32).toNat = 65 := rfl
      omega
    · right
      show (90 : UInt32).toNat < c.val.toNat
      have h90 : (90 : UInt32).toNat = 90 := rfl
      omega

/-- Every character the sanitizer emits is neither a disallowed
character nor an uppercase letter. -/
theorem sanitizeChar_safe (c : Char) :
    sanitizeChar c ≠ '.' ∧ sanitizeChar c ≠ ' ' ∧ sanitizeChar c ≠ '@'
      ∧ (sanitizeChar c).isUpper = false := by
  unfold sanitizeChar
  split
  · exact ⟨by decide, by decide, by decide, by decide⟩
  · rename_i hc
    push_neg at hc
    obtain ⟨hd, hs, ha⟩ := hc
    refine ⟨?_, ?_, ?_, toLower_not_upper c⟩ <;>
    · simp only [Char.toLower]
      split
      · rename_i h
        obtain ⟨h1, h2⟩ := h
        set n := c.toNat with hn
        interval_cases n <;> decide
      · assumption

/-- C7: the username sanitizer maps `"Max.Mustermann"` to
`"max-mustermann"`; it is deterministic (equal inputs give equal
outputs, and being a total function it raises no exception on any
input); and every output character is lowercase with the disallowed
characters (dots, spaces, `@`) eliminated. -/
theorem sanitizeUsername_spec :
    sanitizeUsername "Max.Mustermann" = "max-mustermann"
    ∧ (∀ s t : String, s = t → sanitizeUsername s = sanitizeUsername t)
    ∧ (∀ s : String, ∀ c ∈ (sanitizeUsername s).data,
        c ≠ '.' ∧ c ≠ ' ' ∧ c ≠ '@' ∧ c.isUpper = false) := by
  refine ⟨by decide, ?_, ?_⟩
  · intro s t h
    rw [h]
  · intro s c hc
    unfold sanitizeUsername at hc
    obtain ⟨c0, _, rfl⟩ := List.mem_map.mp hc
    exact sanitizeChar_safe c0

/-- Witness for C7: determinism and output safety at concrete
inputs. -/
theorem sanitizeUsername_spec_witness :
    sanitizeUsername "Max.Mustermann" = sanitizeUsername "Max.Mustermann"
    ∧ ('m' ≠ '.' ∧ 'm' ≠ ' ' ∧ 'm' ≠ '@' ∧ Char.isUpper 'm' = false) :=
  ⟨sanitizeUsername_spec.2.1 "Max.Mustermann" "Max.Mustermann" rfl,
   sanitizeUsername_spec.2.2 "Max.Mustermann" 'm' (by decide)⟩

/-- C8: when no non-terminal task exists for a target, the first deploy
request is admitted and queued; a second request for the same target
while the first is still non-terminal is merged as a no-op result (not
an error), queues nothing, and exactly one non-terminal task for the
target remains. -/
theorem submitTask_idempotent_admission
    (tasks : List DeploymentTask) (targetType : EntityType) (targetId : String)
    (kind1 kind2 : TaskKind) (id1 id2 : String)
    (h0 : hasNonTerminalTask tasks targetType targetId = false) :
    (submitTask tasks targetType targetId kind1 id1).2 = SubmitResult.accepted
    ∧ nonTerminalCount (submitTask tasks targetType targetId kind1 id1).1 targetType targetId = 1
    ∧ (submitTask (submitTask tasks targetType targetId kind1 id1).1 targetType targetId
        kind2 id2).2 = SubmitResult.noop
    ∧ (submitTask (submitTask tasks targetType targetId kind1 id1).1 targetType targetId
        kind2 id2).1 = (submitTask tasks targetType targetId kind1 id1).1 := by
  have hfilter : tasks.filter
      (fun t => t.target_type == targetType && t.target_id == targetId && t.nonTerminal) = [] := by
    rw [List.filter_eq_nil_iff]
    intro t ht
    have := List.any_eq_false.mp h0 t ht
    simpa using this
  have hfirst : submitTask tasks targetType targetId kind1 id1
      = (tasks ++ [(⟨id1, targetType, targetId, kind1, .queued⟩ : DeploymentTask)],
         .accepted) := by
    unfold submitTask
    rw [h0]
    rfl
  have hsecond : hasNonTerminalTask
      (tasks ++ [(⟨id1, targetType, targetId, kind1, .queued⟩ : DeploymentTask)])
      targetType targetId = true := by
    unfold hasNonTerminalTask
    rw [List.any_append]
    simp [DeploymentTask.nonTerminal]
  refine ⟨by rw [hfirst], ?_, ?_, ?_⟩
  · rw [hfirst]
    unfold nonTerminalCount
    rw [List.filter_append, hfilter]
    simp [DeploymentTask.nonTerminal]
  · rw [hfirst]
    unfold submitTask
    rw [hsecond]
    rfl
  · rw [hfirst]
    unfold submitTask
    rw [hsecond]
    rfl

/-- Witness for C8: two submissions against an empty task list. -/
theorem submitTask_idempotent_admission_witness :
    (submitTask [] EntityType.attendee "a1" TaskKind.deploy "t1").2 = SubmitResult.accepted
    ∧ nonTerminalCount (submitTask [] EntityType.attendee "a1" TaskKind.deploy "t1").1
        EntityType.attendee "a1" = 1
    ∧ (submitTask (submitTask [] EntityType.attendee "a1" TaskKind.deploy "t1").1
        EntityType.attendee "a1" TaskKind.deploy "t2").2 = SubmitResult.noop
    ∧ (submitTask (submitTask [] EntityType.attendee "a1" TaskKind.deploy "t1").1
        EntityType.attendee "a1" TaskKind.deploy "t2").1
      = (submitTask [] EntityType.attendee "a1" TaskKind.deploy "t1").1 :=
  submitTask_idempotent_admission [] EntityType.attendee "a1" TaskKind.deploy TaskKind.deploy
    "t1" "t2" rfl

/-- The `name` error field finally produced by `validateForm` depends
only on the name checks. -/
theorem validateForm_name (p : String → Int) (now : Int) (fd : FormData) :
    (validateForm p now fd).name =
      (if jsTrim fd.name = "" then some "Workshop name is required"
       else if fd.name.length < 3 then some "Workshop name must be at least 3 characters"
       else if fd.name.length > 100 then some "Workshop name must be less than 100 characters"
       else none) := by
  unfold validateForm
  dsimp only
  simp only [apply_ite FormErrors.name, ite_self]

/-- The `description` error field finally produced by `validateForm`
depends only on the description check. -/
theorem validateForm_description (p : String → Int) (now : Int) (fd : FormData) :
    (validateForm p now fd).description =
      (if fd.description ≠ "" ∧ fd.description.length > 500
       then some "Description must be less than 500 characters" else none) := by
  unfold validateForm
  dsimp only
  simp only [apply_ite FormErrors.description, ite_self]

/-- The `start_date` error field finally produced by `validateForm`. -/
theorem validateForm_start_date (p : String → Int) (now : Int) (fd : FormData) :
    (validateForm p now fd).start_date =
      (if fd.start_date ≠ "" ∧ fd.end_date ≠ "" then
        (if p fd.start_date < now then some "Start date cannot be in the past"
         else if fd.start_date = "" then some "Start date is required" else none)
       else (if fd.start_date = "" then some "Start date is required" else none)) := by
  unfold validateForm
  dsimp only
  simp only [apply_ite FormErrors.start_date, ite_self]

/-- The `end_date` error field finally produced by `validateForm`
(later assignments overwrite earlier ones). -/
theorem validateForm_end_date (p : String → Int) (now : Int) (fd : FormData) :
    (validateForm p now fd).end_date =
      (if fd.start_date ≠ "" ∧ fd.end_date ≠ "" then
        (if p fd.end_date - p fd.start_date > 720 * 3600000
            then some "Workshop cannot be longer than 30 days"
         else if p fd.end_date - p fd.start_date < 3600000
            then some "Workshop must be at least 1 hour long"
         else if p fd.end_date ≤ p fd.start_date then some "End date must be after start date"
         else if fd.end_date = "" then some "End date is required" else none)
       else (if fd.end_date = "" then some "End date is required" else none)) := by
  unfold validateForm
  dsimp only
  simp only [apply_ite FormErrors.end_date, ite_self]

/-- C9: the creation request is issued only if the trimmed name is
non-empty, the name length is between 3 and 100, both dates are
present, the (parsed) start date is not before the current time, the
end date is strictly after the start date, and the duration is between
1 hour and 720 hours; otherwise the submission is blocked with a field
error and no request is sent. -/
theorem createWorkshop_submit_validation (p : String → Int) (now : Int) (fd : FormData) :
    (handleSubmit p now fd = true →
      (jsTrim fd.name ≠ "" ∧ 3 ≤ fd.name.length ∧ fd.name.length ≤ 100
        ∧ fd.start_date ≠ "" ∧ fd.end_date ≠ ""
        ∧ ¬ p fd.start_date < now
        ∧ p fd.start_date < p fd.end_date
        ∧ 3600000 ≤ p fd.end_date - p fd.start_date
        ∧ p fd.end_date - p fd.start_date ≤ 720 * 3600000))
    ∧ (¬ (jsTrim fd.name ≠ "" ∧ 3 ≤ fd.name.length ∧ fd.name.length ≤ 100
        ∧ fd.start_date ≠ "" ∧ fd.end_date ≠ ""
        ∧ ¬ p fd.start_date < now
        ∧ p fd.start_date < p fd.end_date
        ∧ 3600000 ≤ p fd.end_date - p fd.start_date
        ∧ p fd.end_date - p fd.start_date ≤ 720 * 3600000) →
      handleSubmit p now fd = false
        ∧ FormErrors.isEmpty (validateForm p now fd) = false) := by
  have key : handleSubmit p now fd = true →
      (jsTrim fd.name ≠ "" ∧ 3 ≤ fd.name.length ∧ fd.name.length ≤ 100
        ∧ fd.start_date ≠ "" ∧ fd.end_date ≠ ""
        ∧ ¬ p fd.start_date < now
        ∧ p fd.start_date < p fd.end_date
        ∧ 3600000 ≤ p fd.end_date - p fd.start_date
        ∧ p fd.end_date - p fd.start_date ≤ 720 * 3600000) := by
    intro h
    unfold handleSubmit at h
    simp only [FormErrors.isEmpty, decide_eq_true_eq] at h
    obtain ⟨hname, _, hstart, hend⟩ := h
    rw [validateForm_name] at hname
    rw [validateForm_start_date] at hstart
    rw [validateForm_end_date] at hend
    have hs : fd.start_date ≠ "" := by
      intro hs0
      rw [if_neg (by tauto), if_pos hs0] at hstart
      cases hstart
    have he : fd.end_date ≠ "" := by
      intro he0
      rw [if_neg (by tauto), if_pos he0] at hend
      cases hend
    rw [if_pos ⟨hs, he⟩] at hstart hend
    have h1 : jsTrim fd.name ≠ "" := by
      intro h0
      rw [if_pos h0] at hname
      cases hname
    rw [if_neg h1] at hname
    have h2 : ¬ fd.name.length < 3 := by
      intro h0
      rw [if_pos h0] at hname
      cases hname
    rw [if_neg h2] at hname
    have h3 : ¬ fd.name.length > 100 := by
      intro h0
      rw [if_pos h0] at hname
      cases hname
    have h8 : ¬ p fd.start_date < now := by
      intro h0
      rw [if_pos h0] at hstart
      cases hstart
    have h11 : ¬ p fd.end_date - p fd.start_date > 720 * 3600000 := by
      intro h0
      rw [if_pos h0] at hend
      cases hend
    rw [if_neg h11] at hend
    have h10 : ¬ p fd.end_date - p fd.start_date < 3600000 := by
      intro h0
      rw [if_pos h0] at hend
      cases hend
    rw [if_neg h10] at hend
    have h9 : ¬ p fd.end_date ≤ p fd.start_date := by
      intro h0
      rw [if_pos h0] at hend
      cases hend
    exact ⟨h1, by omega, by omega, hs, he, h8, by omega, by omega, by omega⟩
  refine ⟨key, ?_⟩
  intro hnc
  have hfalse : handleSubmit p now fd = false := by
    cases hb : handleSubmit p now fd
    · rfl
    · exact absurd (key hb) hnc
  exact ⟨hfalse, hfalse⟩

/-- Witness for C9: a well-formed one-hour workshop passes (and hence
satisfies every condition), and a two-letter name is blocked with a
field error. -/
theorem createWorkshop_submit_validation_witness :
    (jsTrim "My Workshop" ≠ "" ∧ 3 ≤ "My Workshop".length ∧ "My Workshop".length ≤ 100
      ∧ "start" ≠ "" ∧ "end" ≠ ""
      ∧ ¬ sampleParseDate "start" < 0
      ∧ sampleParseDate "start" < sampleParseDate "end"
      ∧ 3600000 ≤ sampleParseDate "end" - sampleParseDate "start"
      ∧ sampleParseDate "end" - sampleParseDate "start" ≤ 720 * 3600000)
    ∧ (handleSubmit sampleParseDate 0
          { name := "ab", description := "", start_date := "start", end_date := "end" } = false
        ∧ FormErrors.isEmpty (validateForm sampleParseDate 0
            { name := "ab", description := "", start_date := "start", end_date := "end" })
          = false) :=
  ⟨(createWorkshop_submit_validation sampleParseDate 0
      { name := "My Workshop", description := "", start_date := "start", end_date := "end" }).1
      (by decide),
   (createWorkshop_submit_validation sampleParseDate 0
      { name := "ab", description := "", start_date := "start", end_date := "end" }).2
      (by decide)⟩
